import Mathlib

/-!
Shallow embedding of the vision-x image-processing core: the pixel-grid data
model (`core.rs`), the geometry transforms (`imgproc/frame.rs`) and the
colorspace conversions (`imgproc/color.rs`).

Modelling conventions:
* Rust `u32`/`usize`/`u8`/`u16` values are modelled as natural numbers; the
  arithmetic done on them by the embedded functions (comparisons, guarded
  subtraction, multiplication followed by floor division on in-memory image
  sizes) stays far below the machine-word bound, so no wrap-around is modelled.
* Rust `f32` arithmetic is modelled exactly over the rationals.  Every numeric
  fact proved below about the colour formulas is evaluated at inputs where the
  exact rational value is far from any f32 rounding boundary, so the exact and
  the floating computation agree there.  Rational division by zero yields 0 in
  Lean where an f32 division 0.0/0.0 yields NaN; no theorem below evaluates a
  colour formula at a point where the source divides by zero.
* The `ndarray` two-dimensional array is modelled as a row-major list of rows,
  indexed `[y][x]` exactly as in the source.  An out-of-range `ndarray` index
  panics in Rust; the model returns `none` / leaves the grid unchanged there,
  and every theorem that touches the backing grid carries the data-model
  invariant `wf` (declared width and height match the backing grid), under
  which the panicking branch is unreachable.
-/

namespace VisionX

/-- Truncation of a rational toward zero: the semantics of the Rust cast from
f32 to an integer type, before saturation is applied. -/
def qtrunc (q : ℚ) : ℤ := if 0 ≤ q then ⌊q⌋ else ⌈q⌉

/-- Rounding of a rational to the nearest integer, halves away from zero: the
semantics of f32::round in Rust. -/
def qround (q : ℚ) : ℤ := if 0 ≤ q then ⌊q + 1/2⌋ else -⌊-q + 1/2⌋

/-- Remainder taking the sign of the dividend: the semantics of the Rust
remainder operator on f32 values. -/
def qrem (a b : ℚ) : ℚ := a - b * qtrunc (a / b)

/-- Saturating cast of a rounded f32 value to u8, modelling the source idiom
value.round() as u8 (negative values clamp to 0, values above 255 to 255). -/
def u8round (q : ℚ) : ℕ := (min 255 (qround q)).toNat

/-- Saturating truncating cast of an f32 value to u8, modelling the source
idiom value as u8. -/
def u8trunc (q : ℚ) : ℕ := (min 255 (qtrunc q)).toNat

/-- Modelled from the spec: the error enum `VisionXErrorKind` of the repository
is referenced by `core.rs`, `imgproc/frame.rs`, `imgproc/color.rs` and `io.rs`
but its declaration is not among the provided sources.  Section 7 of the spec
gives the taxonomy: `IndexOutOfBound` carries the attempted value(s) and the
actual bounds, `InvalidColorType` carries the source format name, and the two
remaining kinds belong to the decode/encode boundary.  The callers construct
each variant from one formatted message; here the numeric payload of
`IndexOutofBound` is kept structured, as the list of the numbers that the
source interpolates into its message, in the order they are interpolated. -/
inductive VisionXErrorKind where
  | IndexOutofBound (info : List ℕ)
  | InvalidColorType (msg : String)
  | InvalidImageDepthSize (msg : String)
  | InsufficientBufferSize (msg : String)
deriving DecidableEq

/-- Modelled from the spec: result alias used by every fallible operation of
the core, a plain result over `VisionXErrorKind`. -/
abbrev VisionXResult (α : Type) : Type := Except VisionXErrorKind α

instance {ε α : Type} [DecidableEq ε] [DecidableEq α] : DecidableEq (Except ε α)
  | Except.ok a, Except.ok b =>
      if h : a = b then isTrue (by rw [h])
      else isFalse (fun hh => h (Except.ok.inj hh))
  | Except.ok _, Except.error _ => isFalse (fun hh => Except.noConfusion hh)
  | Except.error _, Except.ok _ => isFalse (fun hh => Except.noConfusion hh)
  | Except.error a, Except.error b =>
      if h : a = b then isTrue (by rw [h])
      else isFalse (fun hh => h (Except.error.inj hh))

variable {P Q : Type}

/-- The struct `ImageData` of `core.rs`: declared height and width plus the
backing pixel grid, a row-major grid of `N`-channel pixels indexed `[y][x]`.
The pixel type parameter `P` plays the role of the Rust pair of a sample type
and a channel count. -/
structure ImageData (P : Type) where
  height : ℕ
  width : ℕ
  pixels : List (List P)
deriving DecidableEq

/-- The constructor `ImageData::new(width, height, pixels)` of `core.rs`: no
validation that the grid dimensions match width and height. -/
def ImageData.new (width height : ℕ) (pixels : List (List P)) : ImageData P :=
  { height := height, width := width, pixels := pixels }

/-- Lookup of the backing grid cell `pixels[(y, x)]` as an option: the source
indexes the `ndarray` directly, which panics when the index is outside the
backing grid; the model returns `none` there. -/
def cellAt (rows : List (List P)) (x y : ℕ) : Option P :=
  (rows[y]?).bind fun row => row[x]?

/-- Update of the backing grid cell `pixels[(y, x)] = value`; out of the
backing grid the source panics, the model leaves the grid unchanged. -/
def setCell (rows : List (List P)) (x y : ℕ) (value : P) : List (List P) :=
  rows.set y (((rows[y]?).getD []).set x value)

/-- The data-model invariant of section 3 of the spec: the declared height is
the number of rows and every row has the declared width. -/
def ImageData.wf (g : ImageData P) : Prop :=
  g.pixels.length = g.height ∧ ∀ row ∈ g.pixels, row.length = g.width

instance (g : ImageData P) : Decidable g.wf :=
  inferInstanceAs (Decidable (_ ∧ _))

/-- The accessor `ImageData::get_pixel_at` of `core.rs`: guarded by the
declared width and height, then an unchecked read of the backing grid. -/
def ImageData.get_pixel_at (g : ImageData P) (x y : ℕ) : Option P :=
  if x < g.width ∧ y < g.height then cellAt g.pixels x y else none

/-- The mutator `ImageData::set_pixel_at` of `core.rs`.  The Rust method takes
the grid by mutable reference and returns a unit result; the model passes the
state explicitly and returns the grid after the call next to the result.  The
error payload lists the numbers interpolated into the source message, namely
the attempted coordinate and the declared size. -/
def ImageData.set_pixel_at (g : ImageData P) (x y : ℕ) (value : P) :
    ImageData P × VisionXResult Unit :=
  if x < g.width ∧ y < g.height then
    ({ g with pixels := setCell g.pixels x y value }, Except.ok ())
  else
    (g, Except.error (VisionXErrorKind.IndexOutofBound [x, y, g.width, g.height]))

/-- The method `ImageData::resize` of `imgproc/frame.rs`: nearest-neighbor
resampling.  The destination grid is allocated filled with the default pixel
`d` (modelling `[T::default(); N]`); each destination coordinate `(x, y)` maps
to the source coordinate `(x * src_width / width, y * src_height / height)`
with integer floor division and keeps the default when `get_pixel_at` returns
nothing there. -/
def ImageData.resize (g : ImageData P) (d : P) (width height : ℕ) : ImageData P :=
  ImageData.new width height
    ((List.range height).map fun y =>
      (List.range width).map fun x =>
        (g.get_pixel_at (x * g.width / width) (y * g.height / height)).getD d)

/-- The method `ImageData::crop` of `imgproc/frame.rs`: point1 is the inclusive
top-left corner, point2 the exclusive bottom-right corner; on success the
sub-rectangle is copied out, otherwise the call fails with `IndexOutofBound`
carrying the numbers interpolated into the source message (both points, then
the source dimensions). -/
def ImageData.crop (g : ImageData P) (point1 point2 : ℕ × ℕ) :
    VisionXResult (ImageData P) :=
  if point1.1 < point2.1 ∧ point1.2 < point2.2 ∧
      point2.1 ≤ g.width ∧ point2.2 ≤ g.height then
    Except.ok (ImageData.new (point2.1 - point1.1) (point2.2 - point1.2)
      (((g.pixels.drop point1.2).take (point2.2 - point1.2)).map
        fun row => (row.drop point1.1).take (point2.1 - point1.1)))
  else
    Except.error (VisionXErrorKind.IndexOutofBound
      [point1.1, point1.2, point2.1, point2.2, g.width, g.height])

/-- Element-wise map over the backing grid, the model of `ndarray::map` as the
conversion methods of `imgproc/color.rs` use it: the shape is preserved and a
fresh grid is produced. -/
def mapGrid (f : P → Q) (rows : List (List P)) : List (List Q) :=
  rows.map (List.map f)

/-- The enum `Image` of `core.rs`: the closed union of the nine supported
pixel formats.  Samples are naturals (u8 or u16 valued), HSV components are
rationals (modelling f32); multi-channel pixels are tuples in channel order. -/
inductive Image where
  | ImageGrayscale (grayscale : ImageData ℕ)
  | ImageGrayscaleAlpha (grayscale_alpha : ImageData (ℕ × ℕ))
  | ImageRgb (rgb : ImageData (ℕ × ℕ × ℕ))
  | ImageRgba (rgba : ImageData (ℕ × ℕ × ℕ × ℕ))
  | ImageGrayscale16 (grayscale16 : ImageData ℕ)
  | ImageGrayscaleAlpha16 (grayscale_alpha16 : ImageData (ℕ × ℕ))
  | ImageRgb16 (rgb16 : ImageData (ℕ × ℕ × ℕ))
  | ImageRgba16 (rgba16 : ImageData (ℕ × ℕ × ℕ × ℕ))
  | ImageHsv (hsv : ImageData (ℚ × ℚ × ℚ))
deriving DecidableEq

/-- The method `Image::to_str` of `core.rs`. -/
def Image.to_str : Image → String
  | Image.ImageGrayscale _ => "grayscale"
  | Image.ImageGrayscaleAlpha _ => "grayscale_alpha"
  | Image.ImageGrayscale16 _ => "grayscale16"
  | Image.ImageGrayscaleAlpha16 _ => "grayscale_alpha16"
  | Image.ImageRgb _ => "rgb"
  | Image.ImageRgb16 _ => "rgb16"
  | Image.ImageRgba _ => "rgba"
  | Image.ImageRgba16 _ => "rgba16"
  | Image.ImageHsv _ => "hsv"

/-- The data-model invariant lifted to the format union: the grid wrapped by
the variant satisfies the `ImageData` invariant. -/
def Image.wf : Image → Prop
  | Image.ImageGrayscale g => g.wf
  | Image.ImageGrayscaleAlpha g => g.wf
  | Image.ImageRgb g => g.wf
  | Image.ImageRgba g => g.wf
  | Image.ImageGrayscale16 g => g.wf
  | Image.ImageGrayscaleAlpha16 g => g.wf
  | Image.ImageRgb16 g => g.wf
  | Image.ImageRgba16 g => g.wf
  | Image.ImageHsv g => g.wf

instance (img : Image) : Decidable img.wf := by
  cases img <;> exact inferInstanceAs (Decidable (ImageData.wf _))

/-- The private helper `Image::downcast_8bit` of `imgproc/color.rs`, verbatim:
the sample is divided by `u16::MAX` as f32 and the quotient is cast (truncated)
to u8.  There is no multiplication by 255 in the source. -/
def Image.downcast_8bit (pixel : ℕ) : ℕ :=
  u8trunc ((pixel : ℚ) / 65535)

/-- The private helper `Image::rgb_to_gray` of `imgproc/color.rs`: the weighted
luma sum, rounded and cast to u8. -/
def Image.rgb_to_gray (rgb : ℕ × ℕ × ℕ) : ℕ :=
  u8round (0.299 * (rgb.1 : ℚ) + 0.587 * (rgb.2.1 : ℚ) + 0.114 * (rgb.2.2 : ℚ))

/-- The private helper `Image::rgb_to_hsv` of `imgproc/color.rs`, verbatim
including its defect: the normalized blue component `b_prime` is computed from
`rgb[1]`, the green channel, not from `rgb[2]`. -/
def Image.rgb_to_hsv (rgb : ℕ × ℕ × ℕ) : ℚ × ℚ × ℚ :=
  let r_prime : ℚ := (rgb.1 : ℚ) / 255
  let g_prime : ℚ := (rgb.2.1 : ℚ) / 255
  let b_prime : ℚ := (rgb.2.1 : ℚ) / 255
  let c_max : ℚ := max r_prime (max g_prime b_prime)
  let c_min : ℚ := min r_prime (min g_prime b_prime)
  let delta : ℚ := c_max - c_min
  let h : ℚ :=
    if c_max = r_prime then qrem ((g_prime - b_prime) / delta) 6
    else if c_max = g_prime then (b_prime - r_prime) / delta + 2
    else if c_max = b_prime then (r_prime - g_prime) / delta + 4
    else 0
  let s : ℚ := if c_max = 0 then 0 else delta / c_max
  let v : ℚ := c_max
  (h, s, v)

/-- The private helper `Image::hsv_to_rgb` of `imgproc/color.rs`, verbatim:
note that the offset `m` is computed from `hsv[1]` (the saturation), and the
output channels are `component + m * 255` rounded, exactly as the source
writes them. -/
def Image.hsv_to_rgb (hsv : ℚ × ℚ × ℚ) : ℕ × ℕ × ℕ :=
  let chroma : ℚ := hsv.2.1 * hsv.2.2
  let h_prime : ℚ := hsv.1 / 60
  let x : ℚ := chroma * (1 - |qrem h_prime 2 - 1|)
  let m : ℚ := hsv.2.1 - chroma
  let rgb : ℚ × ℚ × ℚ :=
    if 0 ≤ hsv.1 ∧ hsv.1 < 60 then (chroma, x, 0)
    else if 60 ≤ hsv.1 ∧ hsv.1 < 120 then (x, chroma, 0)
    else if 120 ≤ hsv.1 ∧ hsv.1 < 180 then (0, chroma, x)
    else if 180 ≤ hsv.1 ∧ hsv.1 < 240 then (0, x, chroma)
    else if 240 ≤ hsv.1 ∧ hsv.1 < 300 then (x, 0, chroma)
    else if 300 ≤ hsv.1 ∧ hsv.1 < 360 then (chroma, 0, x)
    else (0, 0, 0)
  (u8round (rgb.1 + m * 255), u8round (rgb.2.1 + m * 255), u8round (rgb.2.2 + m * 255))

/-- The method `Image::grayscale` of `imgproc/color.rs`: total over the nine
variants, always returning the `ImageGrayscale` wrapping.  The 16-bit
grayscale arms rescale inline with the rounding formula, while the 16-bit RGB
arms go through `downcast_8bit`; the HSV arm applies the rescale-then-luma
shortcut of the source. -/
def Image.grayscale (img : Image) : Image :=
  let grayscale_image : ImageData ℕ :=
    match img with
    | Image.ImageGrayscale grayscale => grayscale
    | Image.ImageGrayscaleAlpha grayscale_alpha =>
        ImageData.new grayscale_alpha.width grayscale_alpha.height
          (mapGrid (fun px_vec => px_vec.1) grayscale_alpha.pixels)
    | Image.ImageGrayscale16 grayscale16 =>
        ImageData.new grayscale16.width grayscale16.height
          (mapGrid (fun px_vec : ℕ => u8round ((px_vec : ℚ) / 65535 * 255))
            grayscale16.pixels)
    | Image.ImageGrayscaleAlpha16 grayscale_alpha16 =>
        ImageData.new grayscale_alpha16.width grayscale_alpha16.height
          (mapGrid (fun px_vec => u8round ((px_vec.1 : ℚ) / 65535 * 255))
            grayscale_alpha16.pixels)
    | Image.ImageRgb rgb =>
        ImageData.new rgb.width rgb.height
          (mapGrid Image.rgb_to_gray rgb.pixels)
    | Image.ImageRgba rgba =>
        ImageData.new rgba.width rgba.height
          (mapGrid (fun px_vec => Image.rgb_to_gray (px_vec.1, px_vec.2.1, px_vec.2.2.1))
            rgba.pixels)
    | Image.ImageRgb16 rgb16 =>
        ImageData.new rgb16.width rgb16.height
          (mapGrid (fun px_vec => Image.rgb_to_gray
              (Image.downcast_8bit px_vec.1, Image.downcast_8bit px_vec.2.1,
                Image.downcast_8bit px_vec.2.2))
            rgb16.pixels)
    | Image.ImageRgba16 rgba16 =>
        ImageData.new rgba16.width rgba16.height
          (mapGrid (fun px_vec => Image.rgb_to_gray
              (Image.downcast_8bit px_vec.1, Image.downcast_8bit px_vec.2.1,
                Image.downcast_8bit px_vec.2.2.1))
            rgba16.pixels)
    | Image.ImageHsv hsv =>
        ImageData.new hsv.width hsv.height
          (mapGrid (fun px_vec => u8round
              (0.299 * (px_vec.1 / 65535 * 255) + 0.587 * (px_vec.2.1 / 65535 * 255)
                + 0.114 * (px_vec.2.2 / 65535 * 255)))
            hsv.pixels)
  Image.ImageGrayscale grayscale_image

/-- The method `Image::rgb` of `imgproc/color.rs`: identity copy from RGB,
alpha dropped from RGBA, per-channel `downcast_8bit` from the 16-bit RGB
variants, `hsv_to_rgb` from HSV; every other variant fails with
`InvalidColorType` naming the source format. -/
def Image.rgb (img : Image) : VisionXResult Image :=
  match img with
  | Image.ImageRgb rgb =>
      Except.ok (Image.ImageRgb (ImageData.new rgb.width rgb.height rgb.pixels))
  | Image.ImageRgba rgba =>
      Except.ok (Image.ImageRgb (ImageData.new rgba.width rgba.height
        (mapGrid (fun px_vec => (px_vec.1, px_vec.2.1, px_vec.2.2.1)) rgba.pixels)))
  | Image.ImageRgb16 rgb16 =>
      Except.ok (Image.ImageRgb (ImageData.new rgb16.width rgb16.height
        (mapGrid (fun px_vec =>
            (Image.downcast_8bit px_vec.1, Image.downcast_8bit px_vec.2.1,
              Image.downcast_8bit px_vec.2.2))
          rgb16.pixels)))
  | Image.ImageRgba16 rgba16 =>
      Except.ok (Image.ImageRgb (ImageData.new rgba16.width rgba16.height
        (mapGrid (fun px_vec =>
            (Image.downcast_8bit px_vec.1, Image.downcast_8bit px_vec.2.1,
              Image.downcast_8bit px_vec.2.2.1))
          rgba16.pixels)))
  | Image.ImageHsv hsv =>
      Except.ok (Image.ImageRgb (ImageData.new hsv.width hsv.height
        (mapGrid Image.hsv_to_rgb hsv.pixels)))
  | value =>
      Except.error (VisionXErrorKind.InvalidColorType
        ("converting pixel value from " ++ value.to_str ++ " to RGB colorspace"))

/-- The method `Image::hsv` of `imgproc/color.rs`: `rgb_to_hsv` from the RGB
variants (alpha dropped, 16-bit channels downcast first), identity copy from
HSV; every other variant fails with `InvalidColorType` naming the source
format. -/
def Image.hsv (img : Image) : VisionXResult Image :=
  match img with
  | Image.ImageRgb rgb =>
      Except.ok (Image.ImageHsv (ImageData.new rgb.width rgb.height
        (mapGrid Image.rgb_to_hsv rgb.pixels)))
  | Image.ImageRgba rgba =>
      Except.ok (Image.ImageHsv (ImageData.new rgba.width rgba.height
        (mapGrid (fun px_vec => Image.rgb_to_hsv (px_vec.1, px_vec.2.1, px_vec.2.2.1))
          rgba.pixels)))
  | Image.ImageRgb16 rgb16 =>
      Except.ok (Image.ImageHsv (ImageData.new rgb16.width rgb16.height
        (mapGrid (fun px_vec => Image.rgb_to_hsv
            (Image.downcast_8bit px_vec.1, Image.downcast_8bit px_vec.2.1,
              Image.downcast_8bit px_vec.2.2))
          rgb16.pixels)))
  | Image.ImageRgba16 rgba16 =>
      Except.ok (Image.ImageHsv (ImageData.new rgba16.width rgba16.height
        (mapGrid (fun px_vec => Image.rgb_to_hsv
            (Image.downcast_8bit px_vec.1, Image.downcast_8bit px_vec.2.1,
              Image.downcast_8bit px_vec.2.2.1))
          rgba16.pixels)))
  | Image.ImageHsv hsv =>
      Except.ok (Image.ImageHsv (ImageData.new hsv.width hsv.height hsv.pixels))
  | value =>
      Except.error (VisionXErrorKind.InvalidColorType
        ("converting pixel value from " ++ value.to_str ++ " to HSV colorspace"))

/-- The downcast formula exactly as the specification words it, for comparison
with the source helper: round(sample / 65535 * 255). -/
def downcast_8bit_spec (pixel : ℕ) : ℕ :=
  u8round ((pixel : ℚ) / 65535 * 255)

/-- The RGB to HSV conversion exactly as the specification words it, for
comparison with the source helper: identical to `Image.rgb_to_hsv` except
that the normalized blue component comes from the blue channel. -/
def rgb_to_hsv_spec (rgb : ℕ × ℕ × ℕ) : ℚ × ℚ × ℚ :=
  let r_prime : ℚ := (rgb.1 : ℚ) / 255
  let g_prime : ℚ := (rgb.2.1 : ℚ) / 255
  let b_prime : ℚ := (rgb.2.2 : ℚ) / 255
  let c_max : ℚ := max r_prime (max g_prime b_prime)
  let c_min : ℚ := min r_prime (min g_prime b_prime)
  let delta : ℚ := c_max - c_min
  let h : ℚ :=
    if delta = 0 then 0
    else if c_max = r_prime then qrem ((g_prime - b_prime) / delta) 6
    else if c_max = g_prime then (b_prime - r_prime) / delta + 2
    else (r_prime - g_prime) / delta + 4
  let s : ℚ := if c_max = 0 then 0 else delta / c_max
  let v : ℚ := c_max
  (h, s, v)

/-- The HSV to RGB conversion exactly as the specification words it, for
comparison with the source helper: the offset is m = V - chroma and each
output channel is round((component + m) * 255). -/
def hsv_to_rgb_spec (hsv : ℚ × ℚ × ℚ) : ℕ × ℕ × ℕ :=
  let chroma : ℚ := hsv.2.1 * hsv.2.2
  let h_prime : ℚ := hsv.1 / 60
  let x : ℚ := chroma * (1 - |qrem h_prime 2 - 1|)
  let m : ℚ := hsv.2.2 - chroma
  let rgb : ℚ × ℚ × ℚ :=
    if 0 ≤ hsv.1 ∧ hsv.1 < 60 then (chroma, x, 0)
    else if 60 ≤ hsv.1 ∧ hsv.1 < 120 then (x, chroma, 0)
    else if 120 ≤ hsv.1 ∧ hsv.1 < 180 then (0, chroma, x)
    else if 180 ≤ hsv.1 ∧ hsv.1 < 240 then (0, x, chroma)
    else if 240 ≤ hsv.1 ∧ hsv.1 < 300 then (x, 0, chroma)
    else if 300 ≤ hsv.1 ∧ hsv.1 < 360 then (chroma, 0, x)
    else (0, 0, 0)
  (u8round ((rgb.1 + m) * 255), u8round ((rgb.2.1 + m) * 255),
    u8round ((rgb.2.2 + m) * 255))

@[simp] theorem ImageData.new_height (w h : ℕ) (px : List (List P)) :
    (ImageData.new w h px).height = h := rfl

@[simp] theorem ImageData.new_width (w h : ℕ) (px : List (List P)) :
    (ImageData.new w h px).width = w := rfl

@[simp] theorem ImageData.new_pixels (w h : ℕ) (px : List (List P)) :
    (ImageData.new w h px).pixels = px := rfl

/-- C1: the claim states that the private helper downcast_8bit equals
round(sample / 65535 * 255), with 65535 mapping to 255, 0 to 0 and 32768 to
128, and that this one formula is used everywhere a 16-bit sample becomes
8-bit.  The source helper truncates the bare quotient sample / 65535 without
the factor 255, so every sample below 65535 collapses to 0 and 65535 itself to
1, while the 16-bit grayscale arms of grayscale rescale inline with the
rounding formula the claim describes: the helper contradicts both the claimed
formula and the rest of the file.  This theorem evaluates the helper and the
claimed formula at the claimed test points, and shows the inconsistency
between the grayscale16 path (128) and the rgb16 path (0) on the same
mid-scale sample. -/
theorem C1_downcast_8bit_code_bug :
    Image.downcast_8bit 0 = 0 ∧
    Image.downcast_8bit 32768 = 0 ∧
    Image.downcast_8bit 65535 = 1 ∧
    downcast_8bit_spec 0 = 0 ∧
    downcast_8bit_spec 32768 = 128 ∧
    downcast_8bit_spec 65535 = 255 ∧
    Image.downcast_8bit 65535 ≠ downcast_8bit_spec 65535 ∧
    Image.grayscale (Image.ImageGrayscale16 (ImageData.new 1 1 [[32768]]))
      = Image.ImageGrayscale (ImageData.new 1 1 [[128]]) ∧
    Image.rgb (Image.ImageRgb16 (ImageData.new 1 1 [[(32768, 32768, 32768)]]))
      = Except.ok (Image.ImageRgb (ImageData.new 1 1 [[(0, 0, 0)]])) := by
  refine ⟨?_, ?_, ?_, ?_, ?_, ?_, ?_, ?_, ?_⟩ <;>
    norm_num [Image.downcast_8bit, downcast_8bit_spec, u8trunc, u8round, qtrunc,
      qround, Image.grayscale, Image.rgb, mapGrid, ImageData.new] <;> decide

/-- C2: the claim states the standard RGB to HSV formula with the normalized
blue component b = B/255.  The source computes that component from the green
channel (rgb[1]), so on any pixel whose green and blue channels differ the
conversion used by hsv() departs from the claimed formula.  At the pixel
(10, 20, 200) the source formula returns hue 3, saturation 1/2 and value 4/51
(value of the green channel), while the claimed formula returns hue 75/19,
saturation 19/20 and value 40/51. -/
theorem C2_rgb_to_hsv_code_bug :
    Image.rgb_to_hsv (10, 20, 200) = (3, 1/2, 4/51) ∧
    rgb_to_hsv_spec (10, 20, 200) = (75/19, 19/20, 40/51) ∧
    Image.rgb_to_hsv (10, 20, 200) ≠ rgb_to_hsv_spec (10, 20, 200) ∧
    Image.hsv (Image.ImageRgb (ImageData.new 1 1 [[(10, 20, 200)]]))
      = Except.ok (Image.ImageHsv (ImageData.new 1 1 [[(3, 1/2, 4/51)]])) := by
  refine ⟨?_, ?_, ?_, ?_⟩ <;>
    norm_num [Image.rgb_to_hsv, rgb_to_hsv_spec, qrem, qtrunc, Image.hsv,
      mapGrid, ImageData.new]

/-- C3: the claim states the standard HSV to RGB formula with offset
m = V - chroma and output channels round((component + m) * 255), the default
sector for out-of-range hue producing black.  The source computes
m = hsv[1] - chroma (from the saturation) and emits round(component + m * 255)
(only m is scaled), so pure red HSV (0, 1, 1) comes back as (1, 0, 0) instead
of (255, 0, 0), and the out-of-range hue 400 with saturation 1 and value 0
produces white (255, 255, 255) rather than black. -/
theorem C3_hsv_to_rgb_code_bug :
    Image.hsv_to_rgb (0, 1, 1) = (1, 0, 0) ∧
    hsv_to_rgb_spec (0, 1, 1) = (255, 0, 0) ∧
    Image.hsv_to_rgb (0, 1, 1) ≠ hsv_to_rgb_spec (0, 1, 1) ∧
    Image.hsv_to_rgb (400, 1, 0) = (255, 255, 255) := by
  refine ⟨?_, ?_, ?_, ?_⟩ <;>
    norm_num [Image.hsv_to_rgb, hsv_to_rgb_spec, qrem, qtrunc, qround,
      u8round] <;> decide

/-- C4: the claim states that rgb(hsv(Rgb([r,g,b]))) reproduces the original
triple within plus-or-minus 1 per channel, in particular at pure red
[255,0,0].  Through the source conversions the single-pixel red image comes
back as [1,0,0]: the red channel is off by 254, far beyond the claimed
tolerance of 1. -/
theorem C4_round_trip_code_bug :
    (Image.hsv (Image.ImageRgb (ImageData.new 1 1 [[(255, 0, 0)]]))).bind Image.rgb
      = Except.ok (Image.ImageRgb (ImageData.new 1 1 [[(1, 0, 0)]])) ∧
    ¬ ((255 : ℤ) - 1 ≤ 1) := by
  have h1 : Image.hsv (Image.ImageRgb (ImageData.new 1 1 [[(255, 0, 0)]]))
      = Except.ok (Image.ImageHsv (ImageData.new 1 1 [[((0 : ℚ), (1 : ℚ), (1 : ℚ))]])) := by
    norm_num [Image.hsv, Image.rgb_to_hsv, qrem, qtrunc, mapGrid, ImageData.new]
  have h2 : Image.rgb (Image.ImageHsv (ImageData.new 1 1 [[((0 : ℚ), (1 : ℚ), (1 : ℚ))]]))
      = Except.ok (Image.ImageRgb (ImageData.new 1 1 [[(1, 0, 0)]])) := by
    norm_num [Image.rgb, Image.hsv_to_rgb, qrem, qtrunc, qround, u8round,
      mapGrid, ImageData.new]
  refine ⟨?_, by norm_num⟩
  rw [h1]
  simpa [Except.bind] using h2

/-- Helper: reading a cell of the cropped sub-rectangle is reading the source
cell shifted by the top-left corner. -/
theorem cellAt_slice (rows : List (List P)) (x0 x1 y0 y1 i j : ℕ)
    (hi : i < x1 - x0) (hj : j < y1 - y0) :
    cellAt (((rows.drop y0).take (y1 - y0)).map
        fun row => (row.drop x0).take (x1 - x0)) i j
      = cellAt rows (x0 + i) (y0 + j) := by
  unfold cellAt
  rw [List.getElem?_map, List.getElem?_take, if_pos hj, List.getElem?_drop]
  cases h : rows[y0 + j]? with
  | none => simp
  | some row =>
      simp only [Option.map_some', Option.some_bind]
      rw [List.getElem?_take, if_pos hi, List.getElem?_drop]

/-- Helper: the crop guard holds, so crop returns the sliced grid. -/
theorem crop_of_guard (g : ImageData P) (x0 y0 x1 y1 : ℕ)
    (hc : x0 < x1 ∧ y0 < y1 ∧ x1 ≤ g.width ∧ y1 ≤ g.height) :
    g.crop (x0, y0) (x1, y1) = Except.ok (ImageData.new (x1 - x0) (y1 - y0)
      (((g.pixels.drop y0).take (y1 - y0)).map
        fun row => (row.drop x0).take (x1 - x0))) := by
  simp only [ImageData.crop]
  exact if_pos hc

/-- Helper: the crop guard fails, so crop returns the out-of-bound error. -/
theorem crop_of_not_guard (g : ImageData P) (x0 y0 x1 y1 : ℕ)
    (hc : ¬ (x0 < x1 ∧ y0 < y1 ∧ x1 ≤ g.width ∧ y1 ≤ g.height)) :
    g.crop (x0, y0) (x1, y1) = Except.error (VisionXErrorKind.IndexOutofBound
      [x0, y0, x1, y1, g.width, g.height]) := by
  simp only [ImageData.crop]
  exact if_neg hc

/-- C5: for every grid and points such that crop succeeds, the result has
width x1 - x0 and height y1 - y0, and every in-range cell (i, j) of the result
reads the source cell (x0 + i, y0 + j). -/
theorem C5_crop_content (g : ImageData P) (x0 y0 x1 y1 : ℕ) (hwf : g.wf)
    (res : ImageData P) (hok : g.crop (x0, y0) (x1, y1) = Except.ok res) :
    res.width = x1 - x0 ∧ res.height = y1 - y0 ∧
    ∀ i j, i < x1 - x0 → j < y1 - y0 →
      res.get_pixel_at i j = g.get_pixel_at (x0 + i) (y0 + j) := by
  by_cases hc : x0 < x1 ∧ y0 < y1 ∧ x1 ≤ g.width ∧ y1 ≤ g.height
  · rw [crop_of_guard g x0 y0 x1 y1 hc] at hok
    obtain rfl : _ = res := Except.ok.inj hok
    refine ⟨rfl, rfl, ?_⟩
    intro i j hi hj
    have hgx : x0 + i < g.width := by omega
    have hgy : y0 + j < g.height := by omega
    rw [ImageData.get_pixel_at, if_pos ⟨hi, hj⟩,
      ImageData.get_pixel_at, if_pos ⟨hgx, hgy⟩]
    exact cellAt_slice g.pixels x0 x1 y0 y1 i j hi hj
  · rw [crop_of_not_guard g x0 y0 x1 y1 hc] at hok
    exact absurd hok (by simp)

/-- Witness for C5 at a concrete 3 by 3 grid cropped to its right 2 by 2
corner rectangle. -/
theorem C5_crop_content_witness :
    (ImageData.new 2 2 [[2, 3], [5, 6]] : ImageData ℕ).width = 3 - 1 ∧
    (ImageData.new 2 2 [[2, 3], [5, 6]] : ImageData ℕ).height = 2 - 0 ∧
    ∀ i j, i < 3 - 1 → j < 2 - 0 →
      (ImageData.new 2 2 [[2, 3], [5, 6]] : ImageData ℕ).get_pixel_at i j
        = (ImageData.new 3 3 [[1, 2, 3], [4, 5, 6], [7, 8, 9]]
            : ImageData ℕ).get_pixel_at (1 + i) (0 + j) :=
  C5_crop_content (ImageData.new 3 3 [[1, 2, 3], [4, 5, 6], [7, 8, 9]]) 1 0 3 2
    (by decide) (ImageData.new 2 2 [[2, 3], [5, 6]]) (by decide)

/-- C6: crop returns Ok exactly when x0 less than x1, y0 less than y1, x1 at
most width and y1 at most height; on violation it fails with IndexOutofBound
carrying both points and the source dimensions, in particular at the two
boundary cases named by the spec, and no partial crop is produced. -/
theorem C6_crop_guard (g : ImageData P) (x0 y0 x1 y1 : ℕ) (hwf : g.wf) :
    ((∃ res, g.crop (x0, y0) (x1, y1) = Except.ok res) ↔
      x0 < x1 ∧ y0 < y1 ∧ x1 ≤ g.width ∧ y1 ≤ g.height) ∧
    (¬ (x0 < x1 ∧ y0 < y1 ∧ x1 ≤ g.width ∧ y1 ≤ g.height) →
      g.crop (x0, y0) (x1, y1) = Except.error (VisionXErrorKind.IndexOutofBound
        [x0, y0, x1, y1, g.width, g.height])) ∧
    (∀ res, g.crop (5, 5) (5, 10) ≠ Except.ok res) ∧
    (∀ res, g.crop (0, 0) (g.width + 1, g.height) ≠ Except.ok res) := by
  refine ⟨⟨?_, ?_⟩, ?_, ?_, ?_⟩
  · rintro ⟨res, h⟩
    by_contra hc
    rw [crop_of_not_guard g x0 y0 x1 y1 hc] at h
    exact absurd h (by simp)
  · intro hc
    exact ⟨_, crop_of_guard g x0 y0 x1 y1 hc⟩
  · exact fun hc => crop_of_not_guard g x0 y0 x1 y1 hc
  · intro res h
    rw [crop_of_not_guard g 5 5 5 10 (by omega)] at h
    exact absurd h (by simp)
  · intro res h
    rw [crop_of_not_guard g 0 0 (g.width + 1) g.height (by omega)] at h
    exact absurd h (by simp)

/-- Witness for C6 at a concrete 3 by 3 grid: the interior crop (0,0)-(1,1)
is accepted. -/
theorem C6_crop_guard_witness :
    ∃ res, (ImageData.new 3 3 [[1, 2, 3], [4, 5, 6], [7, 8, 9]]
      : ImageData ℕ).crop (0, 0) (1, 1) = Except.ok res :=
  (C6_crop_guard (ImageData.new 3 3 [[1, 2, 3], [4, 5, 6], [7, 8, 9]]) 0 0 1 1
    (by decide)).1.mpr (by decide)

/-- Helper: reading a cell of a grid built from two nested List.range maps. -/
theorem cellAt_rangeMap (f : ℕ → ℕ → P) (W H x y : ℕ) (hx : x < W) (hy : y < H) :
    cellAt ((List.range H).map fun j => (List.range W).map fun i => f i j) x y
      = some (f x y) := by
  unfold cellAt
  rw [List.getElem?_map]
  simp only [List.getElem?_range, hy, if_pos, Option.map_some', Option.some_bind]
  rw [List.getElem?_map]
  simp [List.getElem?_range, hx]

/-- C7: resize always produces the requested dimensions, and each destination
cell (x, y) holds the source pixel at (x * src_width / W, y * src_height / H),
integer floor division, falling back to the supplied default pixel when that
coordinate is out of the source bounds. -/
theorem C7_resize (g : ImageData P) (d : P) (W H : ℕ) (hwf : g.wf)
    (hW : 0 < W) (hH : 0 < H) :
    (g.resize d W H).width = W ∧ (g.resize d W H).height = H ∧
    ∀ x y, x < W → y < H →
      cellAt (g.resize d W H).pixels x y
        = some ((g.get_pixel_at (x * g.width / W) (y * g.height / H)).getD d) := by
  refine ⟨rfl, rfl, ?_⟩
  intro x y hx hy
  exact cellAt_rangeMap
    (fun i j => (g.get_pixel_at (i * g.width / W) (j * g.height / H)).getD d)
    W H x y hx hy

/-- Witness for C7: a 2 by 1 source grid upscaled to 4 by 2. -/
theorem C7_resize_witness :
    ((ImageData.new 2 1 [[7, 9]] : ImageData ℕ).resize 0 4 2).width = 4 ∧
    ((ImageData.new 2 1 [[7, 9]] : ImageData ℕ).resize 0 4 2).height = 2 ∧
    ∀ x y, x < 4 → y < 2 →
      cellAt ((ImageData.new 2 1 [[7, 9]] : ImageData ℕ).resize 0 4 2).pixels x y
        = some (((ImageData.new 2 1 [[7, 9]] : ImageData ℕ).get_pixel_at
            (x * 2 / 4) (y * 1 / 2)).getD 0) :=
  C7_resize (ImageData.new 2 1 [[7, 9]]) 0 4 2 (by decide) (by decide) (by decide)

/-- C8: on a well-formed grid, get returns the stored pixel exactly on
in-bounds coordinates and none otherwise; set writes the value in place and
returns Ok on the same condition, and otherwise fails with IndexOutofBound
carrying the attempted coordinate and the declared size, leaving the grid
unmodified. -/
theorem C8_get_set (g : ImageData P) (x y : ℕ) (v : P) (hwf : g.wf) :
    (x < g.width ∧ y < g.height →
      (∃ p, cellAt g.pixels x y = some p ∧ g.get_pixel_at x y = some p) ∧
      (g.set_pixel_at x y v).2 = Except.ok () ∧
      (g.set_pixel_at x y v).1.width = g.width ∧
      (g.set_pixel_at x y v).1.height = g.height ∧
      (g.set_pixel_at x y v).1.get_pixel_at x y = some v ∧
      (∀ i j, ¬ (i = x ∧ j = y) →
        (g.set_pixel_at x y v).1.get_pixel_at i j = g.get_pixel_at i j)) ∧
    (g.width ≤ x ∨ g.height ≤ y →
      g.get_pixel_at x y = none ∧
      g.set_pixel_at x y v
        = (g, Except.error (VisionXErrorKind.IndexOutofBound
            [x, y, g.width, g.height]))) := by
  obtain ⟨hlen, hrow⟩ := hwf
  constructor
  · intro hin
    have hy : y < g.pixels.length := by omega
    have hrowsome : g.pixels[y]? = some g.pixels[y] := List.getElem?_eq_getElem hy
    have hxlen : x < g.pixels[y].length := by
      rw [hrow g.pixels[y] (List.getElem_mem hy)]; exact hin.1
    have hget : cellAt g.pixels x y = some g.pixels[y][x] := by
      rw [cellAt, hrowsome, Option.some_bind]
      exact List.getElem?_eq_getElem hxlen
    have hset : g.set_pixel_at x y v
        = ({ g with pixels := setCell g.pixels x y v }, Except.ok ()) := by
      rw [ImageData.set_pixel_at, if_pos hin]
    refine ⟨⟨g.pixels[y][x], hget, ?_⟩, ?_, ?_, ?_, ?_, ?_⟩
    · rw [ImageData.get_pixel_at, if_pos hin]; exact hget
    · rw [hset]
    · rw [hset]
    · rw [hset]
    · rw [hset]
      show ImageData.get_pixel_at _ x y = some v
      rw [ImageData.get_pixel_at, if_pos hin]
      show cellAt (setCell g.pixels x y v) x y = some v
      rw [cellAt, setCell, hrowsome]
      simp only [Option.getD_some]
      rw [List.getElem?_set_self]
      · simp only [Option.some_bind]
        rw [List.getElem?_set_self]
        exact hxlen
      · omega
    · intro i j hij
      rw [hset]
      show ImageData.get_pixel_at _ i j = _
      rw [ImageData.get_pixel_at, ImageData.get_pixel_at]
      show (if i < g.width ∧ j < g.height then
          cellAt (setCell g.pixels x y v) i j else none) = _
      by_cases hb : i < g.width ∧ j < g.height
      · rw [if_pos hb, if_pos hb]
        rw [cellAt, cellAt, setCell, hrowsome]
        simp only [Option.getD_some]
        by_cases hjy : j = y
        · subst hjy
          have hix : i ≠ x := fun h => hij ⟨h, rfl⟩
          rw [List.getElem?_set_self (by omega), Option.some_bind, hrowsome,
            Option.some_bind]
          exact List.getElem?_set_ne hix.symm
        · rw [List.getElem?_set_ne (Ne.symm hjy)]
      · rw [if_neg hb, if_neg hb]
  · intro hout
    have hnin : ¬ (x < g.width ∧ y < g.height) := by omega
    constructor
    · rw [ImageData.get_pixel_at, if_neg hnin]
    · rw [ImageData.set_pixel_at, if_neg hnin]

/-- Witness for C8 at a concrete 2 by 2 grid: the in-bounds branch at (0, 1)
and the out-of-bounds branch at (2, 0). -/
theorem C8_get_set_witness :
    (((ImageData.new 2 2 [[1, 2], [3, 4]] : ImageData ℕ).set_pixel_at
        0 1 42).2 = Except.ok ()) ∧
    (ImageData.new 2 2 [[1, 2], [3, 4]] : ImageData ℕ).get_pixel_at 2 0 = none :=
  ⟨((C8_get_set (ImageData.new 2 2 [[1, 2], [3, 4]]) 0 1 42
      (by decide)).1 (by decide)).2.1,
    ((C8_get_set (ImageData.new 2 2 [[1, 2], [3, 4]]) 2 0 (0 : ℕ)
      (by decide)).2 (by decide)).1⟩

/-- C9: grayscale is total over the nine variants, always wraps its result in
the Grayscale variant, and is idempotent. -/
theorem C9_grayscale_total_idempotent (img : Image) :
    (∃ g, img.grayscale = Image.ImageGrayscale g) ∧
    img.grayscale.grayscale = img.grayscale := by
  cases img <;> exact ⟨⟨_, rfl⟩, rfl⟩

/-- Helper: mapping a pixel function over a well-formed grid and rewrapping it
with the same declared dimensions preserves the invariant. -/
theorem wf_new_mapGrid (f : P → Q) (g : ImageData P) (h : g.wf) :
    (ImageData.new g.width g.height (mapGrid f g.pixels)).wf := by
  obtain ⟨h1, h2⟩ := h
  constructor
  · simpa [mapGrid] using h1
  · intro row hmem
    simp only [ImageData.new_pixels, mapGrid, List.mem_map] at hmem
    obtain ⟨r, hr, rfl⟩ := hmem
    simpa using h2 r hr

/-- Helper: a successful crop of a well-formed grid is well-formed. -/
theorem wf_crop (g : ImageData P) (x0 y0 x1 y1 : ℕ) (hwf : g.wf)
    (hc : x0 < x1 ∧ y0 < y1 ∧ x1 ≤ g.width ∧ y1 ≤ g.height) :
    (ImageData.new (x1 - x0) (y1 - y0)
      (((g.pixels.drop y0).take (y1 - y0)).map
        fun row => (row.drop x0).take (x1 - x0))).wf := by
  obtain ⟨h1, h2⟩ := hwf
  constructor
  · simp only [ImageData.new_pixels, ImageData.new_height, List.length_map,
      List.length_take, List.length_drop]
    omega
  · intro row hmem
    simp only [ImageData.new_pixels, List.mem_map] at hmem
    obtain ⟨r, hr, rfl⟩ := hmem
    have hrpix : r ∈ g.pixels := List.mem_of_mem_drop (List.mem_of_mem_take hr)
    have hrlen : r.length = g.width := h2 r hrpix
    simp only [ImageData.new_width, List.length_take, List.length_drop, hrlen]
    omega

/-- C10: on well-formed inputs, grayscale, rgb (on success), hsv (on success),
resize and crop (on success) all produce grids whose declared width and height
match the backing grid. -/
theorem C10_dimension_consistency (img : Image) (g : ImageData P)
    (d : P) (W H x0 y0 x1 y1 : ℕ) (himg : img.wf) (hg : g.wf) :
    img.grayscale.wf ∧
    (∀ res, img.rgb = Except.ok res → res.wf) ∧
    (∀ res, img.hsv = Except.ok res → res.wf) ∧
    (g.resize d W H).wf ∧
    (∀ res, g.crop (x0, y0) (x1, y1) = Except.ok res → res.wf) := by
  refine ⟨?_, ?_, ?_, ?_, ?_⟩
  · cases img
    case ImageGrayscale grayscale => exact himg
    all_goals exact wf_new_mapGrid _ _ himg
  · intro res h
    cases img with
    | ImageRgb rgb =>
        obtain rfl : _ = res := Except.ok.inj h
        exact himg
    | ImageRgba rgba =>
        obtain rfl : _ = res := Except.ok.inj h
        exact wf_new_mapGrid _ _ himg
    | ImageRgb16 rgb16 =>
        obtain rfl : _ = res := Except.ok.inj h
        exact wf_new_mapGrid _ _ himg
    | ImageRgba16 rgba16 =>
        obtain rfl : _ = res := Except.ok.inj h
        exact wf_new_mapGrid _ _ himg
    | ImageHsv hsv =>
        obtain rfl : _ = res := Except.ok.inj h
        exact wf_new_mapGrid _ _ himg
    | ImageGrayscale gr => exact Except.noConfusion h
    | ImageGrayscaleAlpha gr => exact Except.noConfusion h
    | ImageGrayscale16 gr => exact Except.noConfusion h
    | ImageGrayscaleAlpha16 gr => exact Except.noConfusion h
  · intro res h
    cases img with
    | ImageRgb rgb =>
        obtain rfl : _ = res := Except.ok.inj h
        exact wf_new_mapGrid _ _ himg
    | ImageRgba rgba =>
        obtain rfl : _ = res := Except.ok.inj h
        exact wf_new_mapGrid _ _ himg
    | ImageRgb16 rgb16 =>
        obtain rfl : _ = res := Except.ok.inj h
        exact wf_new_mapGrid _ _ himg
    | ImageRgba16 rgba16 =>
        obtain rfl : _ = res := Except.ok.inj h
        exact wf_new_mapGrid _ _ himg
    | ImageHsv hsv =>
        obtain rfl : _ = res := Except.ok.inj h
        exact himg
    | ImageGrayscale gr => exact Except.noConfusion h
    | ImageGrayscaleAlpha gr => exact Except.noConfusion h
    | ImageGrayscale16 gr => exact Except.noConfusion h
    | ImageGrayscaleAlpha16 gr => exact Except.noConfusion h
  · constructor
    · simp [ImageData.resize]
    · intro row hmem
      simp only [ImageData.resize, ImageData.new_pixels, List.mem_map] at hmem
      obtain ⟨r, hr, rfl⟩ := hmem
      simp [ImageData.resize]
  · intro res h
    by_cases hc : x0 < x1 ∧ y0 < y1 ∧ x1 ≤ g.width ∧ y1 ≤ g.height
    · rw [crop_of_guard g x0 y0 x1 y1 hc] at h
      obtain rfl : _ = res := Except.ok.inj h
      exact wf_crop g x0 y0 x1 y1 hg hc
    · rw [crop_of_not_guard g x0 y0 x1 y1 hc] at h
      exact absurd h (by simp)

/-- Witness for C10 at a concrete single-pixel RGB image and a 2 by 2 grid. -/
theorem C10_dimension_consistency_witness :
    (Image.ImageRgb (ImageData.new 1 1 [[(1, 2, 3)]])).grayscale.wf ∧
    (∀ res, (Image.ImageRgb (ImageData.new 1 1 [[(1, 2, 3)]])).rgb
      = Except.ok res → res.wf) ∧
    (∀ res, (Image.ImageRgb (ImageData.new 1 1 [[(1, 2, 3)]])).hsv
      = Except.ok res → res.wf) ∧
    ((ImageData.new 2 2 [[1, 2], [3, 4]] : ImageData ℕ).resize 0 3 3).wf ∧
    (∀ res, (ImageData.new 2 2 [[1, 2], [3, 4]] : ImageData ℕ).crop (0, 0) (1, 1)
      = Except.ok res → res.wf) :=
  C10_dimension_consistency (Image.ImageRgb (ImageData.new 1 1 [[(1, 2, 3)]]))
    (ImageData.new 2 2 [[1, 2], [3, 4]]) 0 3 3 0 0 1 1 (by decide) (by decide)

end VisionX
